import Mathlib

/-!
Verification of the per-table synchronization engine of the
garmin-bigquery-sync repository (src/sync_bq.py) against its
natural-language specification.  The Python functions are shallowly
embedded as executable Lean definitions; external collaborators
(the warehouse's MERGE execution, the pandas datetime parser) are
modelled from the specification's interface description and are
marked as such in their doc comments.
-/

set_option autoImplicit false

namespace GarminSync

/-! ## Identifier validation (src/sync_bq.py:205-212) -/

/-- The ASCII character class of the pattern `[a-zA-Z0-9_]`. -/
def isWordChar (c : Char) : Bool :=
  c.isAlpha || c.isDigit || c == '_'

/-- Python semantics of `re.match` with the pattern `^[a-zA-Z0-9_]+$`
(src/sync_bq.py:210).  In Python, `$` matches at the end of the string or
just before a newline at the end of the string, so besides nonempty runs of
word characters the pattern also accepts such a run followed by one
trailing newline. -/
def pyMatchTableNamePattern (s : String) : Bool :=
  let l := s.data
  (!l.isEmpty && l.all isWordChar) ||
    (match l.getLast? with
     | some c => c == '\n' && !l.dropLast.isEmpty && l.dropLast.all isWordChar
     | none => false)

/-- The exact language of the regular expression `^[A-Za-z0-9_]+$` as the
specification states it: nonempty strings made only of word characters. -/
def specIdentifierMatch (s : String) : Bool :=
  !s.data.isEmpty && s.data.all isWordChar

/-- `validate_table_name` (src/sync_bq.py:205-212): returns the name
unchanged when the regex match succeeds, raises `ValueError` otherwise. -/
def validate_table_name (s : String) : Except String String :=
  if pyMatchTableNamePattern s then Except.ok s
  else Except.error ("Invalid table name: " ++ s)

/-! ## Static registries (src/sync_bq.py:26-33, 195-202, 38-125) -/

/-- `TABLE_PRIMARY_KEYS` (src/sync_bq.py:26-33). -/
def TABLE_PRIMARY_KEYS : List (String × List String) :=
  [("daily_summary", ["day"]),
   ("activities", ["activity_id"]),
   ("sleep", ["day"]),
   ("stress", ["timestamp"]),
   ("weight", ["day"]),
   ("resting_hr", ["day"])]

/-- `TABLE_PRIMARY_KEYS.get(table_name, ['day'])` (src/sync_bq.py:249). -/
def primaryKeysFor (t : String) : List String :=
  ((TABLE_PRIMARY_KEYS.find? (fun p => p.1 == t)).map Prod.snd).getD ["day"]

/-- `TABLE_TO_DB` (src/sync_bq.py:195-202). -/
def TABLE_TO_DB : List (String × String) :=
  [("daily_summary", "garmin.db"),
   ("sleep", "garmin.db"),
   ("stress", "garmin.db"),
   ("resting_hr", "garmin.db"),
   ("weight", "garmin.db"),
   ("activities", "garmin_activities.db")]

/-- `TABLE_TO_DB.get(validated_table_name, 'garmin.db')` (src/sync_bq.py:379). -/
def dbFileFor (t : String) : String :=
  ((TABLE_TO_DB.find? (fun p => p.1 == t)).map Prod.snd).getD "garmin.db"

/-- `TABLE_SCHEMAS` (src/sync_bq.py:38-125), each column as
(name, BigQuery type). -/
def TABLE_SCHEMAS : List (String × List (String × String)) :=
  [("daily_summary",
    [("day", "DATE"), ("hr_min", "INTEGER"), ("hr_avg", "FLOAT"),
     ("hr_max", "INTEGER"), ("rhr", "INTEGER"), ("stress_avg", "INTEGER"),
     ("step_goal", "INTEGER"), ("steps", "INTEGER"),
     ("moderate_activity_time", "INTEGER"),
     ("vigorous_activity_time", "INTEGER"), ("intensity_time", "INTEGER"),
     ("floors_up", "FLOAT"), ("floors_down", "FLOAT"), ("distance", "FLOAT"),
     ("calories_goal", "INTEGER"), ("calories_total", "INTEGER"),
     ("calories_bmr", "INTEGER"), ("calories_active", "INTEGER"),
     ("activities", "INTEGER"), ("activities_distance", "FLOAT"),
     ("hydration_goal", "INTEGER"), ("hydration_intake", "INTEGER"),
     ("sweat_loss", "INTEGER"), ("spo2_avg", "FLOAT"), ("spo2_min", "FLOAT"),
     ("rr_waking_avg", "FLOAT"), ("rr_max", "FLOAT"), ("rr_min", "FLOAT"),
     ("bb_charged", "FLOAT"), ("bb_max", "FLOAT"), ("bb_min", "FLOAT"),
     ("description", "STRING")]),
   ("activities",
    [("activity_id", "STRING"), ("name", "STRING"), ("description", "STRING"),
     ("type", "STRING"), ("sport", "STRING"), ("sub_sport", "STRING"),
     ("start_time", "TIMESTAMP"), ("stop_time", "TIMESTAMP"),
     ("elapsed_time", "FLOAT"), ("moving_time", "FLOAT"),
     ("distance", "FLOAT"), ("calories", "INTEGER"), ("hr_avg", "INTEGER"),
     ("hr_max", "INTEGER"), ("speed_avg", "FLOAT"), ("speed_max", "FLOAT"),
     ("cadence_avg", "FLOAT"), ("cadence_max", "FLOAT"), ("ascent", "FLOAT"),
     ("descent", "FLOAT")]),
   ("sleep",
    [("day", "DATE"), ("start", "TIMESTAMP"), ("end", "TIMESTAMP"),
     ("total_sleep", "FLOAT"), ("deep_sleep", "FLOAT"),
     ("light_sleep", "FLOAT"), ("rem_sleep", "FLOAT"), ("awake", "FLOAT"),
     ("avg_spo2", "FLOAT"), ("avg_rr", "FLOAT"), ("avg_hr", "FLOAT")]),
   ("stress", [("timestamp", "TIMESTAMP"), ("stress", "INTEGER")]),
   ("weight",
    [("day", "DATE"), ("weight", "FLOAT"), ("bmi", "FLOAT"),
     ("body_fat", "FLOAT"), ("body_water", "FLOAT"), ("bone_mass", "FLOAT"),
     ("muscle_mass", "FLOAT")]),
   ("resting_hr", [("day", "DATE"), ("resting_hr", "INTEGER")])]

/-! ## The datetime-column name heuristics (src/sync_bq.py:342-346) -/

/-- `date_columns` (src/sync_bq.py:343). -/
def date_columns : List String := ["day"]

/-- `timestamp_columns` (src/sync_bq.py:346). -/
def timestamp_columns : List String :=
  ["timestamp", "start", "end", "start_time", "stop_time"]

/-- Modelled from the spec: the "first date-like column" of a row set's
column list, which §4.2 and §9 of the specification name as the default
merge key; "date-like" is read through the normalizer's own date and
timestamp name-pattern sets. -/
def firstDateLikeColumn (columns : List String) : Option String :=
  columns.find? (fun c =>
    date_columns.contains c || timestamp_columns.contains c)

/-! ## MERGE statement construction (src/sync_bq.py:262-290) -/

/-- One conjunct of the ON clause: `T.`pk` = S.`pk`` (src/sync_bq.py:267). -/
def onCondition (pk : String) : String :=
  "T.`" ++ pk ++ "` = S.`" ++ pk ++ "`"

/-- `on_conditions` (src/sync_bq.py:267). -/
def onConditions (primary_keys : List String) : String :=
  String.intercalate " AND " (primary_keys.map onCondition)

/-- One assignment of the UPDATE SET clause (src/sync_bq.py:272/275). -/
def setClause (col : String) : String :=
  "T.`" ++ col ++ "` = S.`" ++ col ++ "`"

/-- `update_columns` (src/sync_bq.py:270): all columns except primary keys. -/
def update_columns (columns primary_keys : List String) : List String :=
  columns.filter (fun col => !primary_keys.contains col)

/-- `update_set` (src/sync_bq.py:271-275): assignments for the non-key
columns, falling back to all columns when every column is a key. -/
def update_set (columns primary_keys : List String) : String :=
  if (update_columns columns primary_keys).isEmpty then
    String.intercalate ", " (columns.map setClause)
  else
    String.intercalate ", " ((update_columns columns primary_keys).map setClause)

/-- `insert_columns` (src/sync_bq.py:278). -/
def insert_columns (columns : List String) : String :=
  String.intercalate ", " (columns.map (fun col => "`" ++ col ++ "`"))

/-- `insert_values` (src/sync_bq.py:279). -/
def insert_values (columns : List String) : String :=
  String.intercalate ", " (columns.map (fun col => "S.`" ++ col ++ "`"))

/-- `merge_sql` (src/sync_bq.py:281-290): the interpolated MERGE text. -/
def merge_sql (full_target full_staging : String)
    (columns primary_keys : List String) : String :=
  "\n        MERGE `" ++ full_target ++ "` T\n        USING `" ++
    full_staging ++ "` S\n        ON " ++ onConditions primary_keys ++
    "\n        WHEN MATCHED THEN\n            UPDATE SET " ++
    update_set columns primary_keys ++
    "\n        WHEN NOT MATCHED THEN\n            INSERT (" ++
    insert_columns columns ++ ")\n            VALUES (" ++
    insert_values columns ++ ")\n        "

/-- The merge statement exactly as the specification words it (§4.5):
join on every primary-key column with equality AND, on match overwrite
every non-key column with the staging value, on no match insert the full
row, every column name delimited with backticks. -/
def spec_update_set (columns primary_keys : List String) : String :=
  String.intercalate ", "
    ((columns.filter (fun col => !primary_keys.contains col)).map setClause)

/-- The whole statement text the specification describes, assembled from
the same template as the source. -/
def spec_merge_sql (full_target full_staging : String)
    (columns primary_keys : List String) : String :=
  "\n        MERGE `" ++ full_target ++ "` T\n        USING `" ++
    full_staging ++ "` S\n        ON " ++ onConditions primary_keys ++
    "\n        WHEN MATCHED THEN\n            UPDATE SET " ++
    spec_update_set columns primary_keys ++
    "\n        WHEN NOT MATCHED THEN\n            INSERT (" ++
    insert_columns columns ++ ")\n            VALUES (" ++
    insert_values columns ++ ")\n        "

/-! ## Warehouse-side MERGE semantics -/

/-- A row of a warehouse table: association list column name → value. -/
abbrev Row := List (String × String)

/-- The value of column `k` in row `r` (first binding wins, as in SQL a
column name resolves to one column). -/
def lookupCol (r : Row) (k : String) : Option String :=
  (r.find? (fun p => p.1 == k)).map Prod.snd

/-- The primary-key projection of a row: its values at the key columns. -/
def rowKey (pks : List String) (r : Row) : List (Option String) :=
  pks.map (lookupCol r)

/-- Modelled from the spec: the effect of the `WHEN MATCHED THEN UPDATE SET`
branch of the statement built by `merge_to_bigquery` — every non-key column
of the target row is overwritten with the staging row's value, key columns
are left alone (§4.5 step 3). -/
def updateRow (pks : List String) (t s : Row) : Row :=
  t.map (fun p =>
    if pks.contains p.1 then p else (p.1, (lookupCol s p.1).getD p.2))

/-- Modelled from the spec: the warehouse's execution of the MERGE
statement built by `merge_to_bigquery` (src/sync_bq.py:281-294), per §4.5
steps 2-5 — target rows whose key matches a staging row are updated in
place, staging rows whose key matches no target row are inserted. -/
def mergeRows (pks : List String) (target staging : List Row) : List Row :=
  target.map (fun t =>
    match staging.find? (fun s => rowKey pks s == rowKey pks t) with
    | some s => updateRow pks t s
    | none => t) ++
  staging.filter (fun s =>
    !target.any (fun t => rowKey pks t == rowKey pks s))

/-! ## The try/finally discipline of merge_to_bigquery (src/sync_bq.py:251-309) -/

/-- Which of the external calls inside `merge_to_bigquery` fail in a given
run: the staging upload (`to_gbq`), the MERGE query, the staging drop
(`delete_table`).  `none` means the call succeeds. -/
structure MergeEnv where
  uploadErr : Option String
  mergeErr : Option String
  dropErr : Option String

/-- The observable calls `merge_to_bigquery` makes against the warehouse,
in order. -/
inductive MergeEvent where
  | uploadStaging
  | runMergeStatement
  | dropStaging
deriving DecidableEq

/-- What a run of `merge_to_bigquery` produces: the value returned or the
exception propagated, the warehouse calls attempted, and the warning lines
printed. -/
structure MergeRun where
  result : Except String Nat
  events : List MergeEvent
  logs : List String

/-- `merge_to_bigquery` (src/sync_bq.py:251-309): the body uploads the
staging table and executes the MERGE, returning the affected-row count;
the `finally` block always attempts the staging drop, and its own `except`
only prints the drop failure. -/
def merge_to_bigquery (env : MergeEnv) (rowsAffected : Nat) : MergeRun :=
  let bodyResult : Except String Nat :=
    match env.uploadErr with
    | some e => Except.error e
    | none =>
      match env.mergeErr with
      | some e => Except.error e
      | none => Except.ok rowsAffected
  let bodyEvents : List MergeEvent :=
    match env.uploadErr with
    | some _ => [MergeEvent.uploadStaging]
    | none => [MergeEvent.uploadStaging, MergeEvent.runMergeStatement]
  let cleanupLogs : List String :=
    match env.dropErr with
    | some e => ["Failed to delete staging table: " ++ e]
    | none => []
  { result := bodyResult
    events := bodyEvents ++ [MergeEvent.dropStaging]
    logs := cleanupLogs }

/-! ## The per-table loop of main (src/sync_bq.py:554-589) -/

/-- The statistics `main` accumulates over the table loop
(src/sync_bq.py:554-568): the per-table row counts in processing order,
the success/failure counters and the row total. -/
structure RunSummary where
  rowCounts : List (String × Nat)
  successCount : Nat
  failedCount : Nat
  totalRows : Nat
deriving DecidableEq

/-- Whether a per-table sync raised. -/
def isFailure {α : Type} : Except String α → Bool
  | Except.error _ => true
  | Except.ok _ => false

/-- The `for table_name in tables_to_sync` loop of `main`
(src/sync_bq.py:559-568): each table's sync runs inside its own
`try/except`; a success records its row count, a failure records 0 rows
and bumps `failed_count`, and the loop always moves on. -/
def runSync (f : String → Except String Nat) : List String → RunSummary
  | [] => { rowCounts := [], successCount := 0, failedCount := 0, totalRows := 0 }
  | t :: ts =>
    let rest := runSync f ts
    match f t with
    | Except.ok n =>
      { rowCounts := (t, n) :: rest.rowCounts
        successCount := rest.successCount + 1
        failedCount := rest.failedCount
        totalRows := n + rest.totalRows }
    | Except.error _ =>
      { rowCounts := (t, 0) :: rest.rowCounts
        successCount := rest.successCount
        failedCount := rest.failedCount + 1
        totalRows := rest.totalRows }

/-- `sys.exit(1) if failed_count > 0` after the summary is printed
(src/sync_bq.py:588-589). -/
def exitCode (s : RunSummary) : Nat :=
  if s.failedCount > 0 then 1 else 0

/-! ## DataFrames and convert_datetime_columns (src/sync_bq.py:328-354) -/

/-- A cell of a snapshot: a raw source value, a canonical date, a
canonical timestamp, or the null marker (pandas `NaT`). -/
inductive Cell where
  | raw (s : String)
  | date (t : Int)
  | ts (t : Int)
  | null
deriving DecidableEq

/-- A column-oriented row snapshot, as pandas holds it: column name with
the list of its cells. -/
abbrev Frame := List (String × List Cell)

/-- `pd.to_datetime(col, errors='coerce')` applied to one cell: the
external parser `parse` either yields a canonical value or fails, and a
failure coerces to the null marker rather than raising. -/
def coerceCell (parse : Cell → Option Int) (mk : Int → Cell) (c : Cell) : Cell :=
  match parse c with
  | some v => mk v
  | none => Cell.null

/-- The per-column body of the conversion loop (src/sync_bq.py:348-352):
columns named in `date_columns` are parsed and normalized to dates,
columns named in `timestamp_columns` are parsed to timestamps, all other
columns pass through untouched. -/
def convertCol (parse : Cell → Option Int) (normalize : Int → Int)
    (col : String × List Cell) : String × List Cell :=
  if date_columns.contains col.1 then
    (col.1, col.2.map (coerceCell parse (fun v => Cell.date (normalize v))))
  else if timestamp_columns.contains col.1 then
    (col.1, col.2.map (coerceCell parse Cell.ts))
  else col

/-- `convert_datetime_columns` (src/sync_bq.py:328-354).  `parse` stands
for the external `pd.to_datetime` parser and `normalize` for
`dt.normalize` (truncation to midnight); both live outside this
repository. -/
def convert_datetime_columns (parse : Cell → Option Int)
    (normalize : Int → Int) (df : Frame) : Frame :=
  df.map (convertCol parse normalize)

/-- The number of rows of a frame (pandas `len(df)` / `df.empty`): the
common column length. -/
def numRows : Frame → Nat
  | [] => 0
  | c :: _ => c.2.length

/-! ## sync_table_to_bigquery (src/sync_bq.py:357-484) -/

/-- The source side the sync reads from: which database files exist, the
sqlite_master table-existence check, and the full-table read. -/
structure SourceStore where
  files : List String
  hasTable : String → String → Bool
  readTable : String → String → Frame

/-- A destination-side write the sync performs. -/
inductive DestAction where
  | createEmpty (table : String) (schema : List (String × String))
  | uploadReplace (table : String) (rows : Nat)
  | mergeUpsert (table : String) (primaryKeys : List String)
deriving DecidableEq

/-- Which branch of `sync_table_to_bigquery` produced the result. -/
inductive SyncStatus where
  | skippedMissingSource
  | skippedMissingTable
  | scaffoldCreated
  | skippedEmptyNoSchema
  | syncedReplace
  | syncedBootstrap
  | syncedMerge
deriving DecidableEq

/-- The value and observable effects of one table's sync. -/
structure SyncResult where
  rows : Nat
  actions : List DestAction
  status : SyncStatus
deriving DecidableEq

/-- `sync_table_to_bigquery` (src/sync_bq.py:357-484): validate the name,
route to the database file with `garmin.db` as default, skip when the file
or the table is absent, scaffold or skip on an empty snapshot, and
otherwise replace (full refresh, or bootstrap of an absent target) or
merge.  `destHasTable` is the warehouse's `get_table` existence probe. -/
def sync_table_to_bigquery (store : SourceStore)
    (destHasTable : String → Bool) (parse : Cell → Option Int)
    (normalize : Int → Int) (table_name : String) (sync_mode : String) :
    Except String SyncResult :=
  match validate_table_name table_name with
  | Except.error e => Except.error e
  | Except.ok validated =>
    let db_file := dbFileFor validated
    if !store.files.contains db_file then
      Except.ok { rows := 0, actions := [],
                  status := SyncStatus.skippedMissingSource }
    else if !store.hasTable db_file validated then
      Except.ok { rows := 0, actions := [],
                  status := SyncStatus.skippedMissingTable }
    else
      let df := convert_datetime_columns parse normalize
        (store.readTable db_file validated)
      let row_count := numRows df
      if row_count = 0 then
        match TABLE_SCHEMAS.find? (fun p => p.1 == validated) with
        | some p =>
          Except.ok { rows := 0,
                      actions := [DestAction.createEmpty validated p.2],
                      status := SyncStatus.scaffoldCreated }
        | none =>
          Except.ok { rows := 0, actions := [],
                      status := SyncStatus.skippedEmptyNoSchema }
      else if sync_mode == "full_refresh" then
        Except.ok { rows := row_count,
                    actions := [DestAction.uploadReplace validated row_count],
                    status := SyncStatus.syncedReplace }
      else if !destHasTable validated then
        Except.ok { rows := row_count,
                    actions := [DestAction.uploadReplace validated row_count],
                    status := SyncStatus.syncedBootstrap }
      else
        Except.ok { rows := row_count,
                    actions :=
                      [DestAction.mergeUpsert validated
                        (primaryKeysFor validated)],
                    status := SyncStatus.syncedMerge }

/-- Whether a sync result is one of the two missing-source skips. -/
def isMissingSkip (r : Except String SyncResult) : Bool :=
  match r with
  | Except.ok res =>
    match res.status with
    | SyncStatus.skippedMissingSource => true
    | SyncStatus.skippedMissingTable => true
    | _ => false
  | Except.error _ => false

/-! ## Concrete instances used by the witnesses -/

/-- A one-row target holding day 2024-01-01 with steps 90. -/
def tgtEx : List Row := [[("day", "2024-01-01"), ("steps", "90")]]

/-- A one-row snapshot for the same day with steps 100. -/
def stgEx : List Row := [[("day", "2024-01-01"), ("steps", "100")]]

/-- A source whose `garmin.db` exists and whose every table reads empty. -/
def storeEmptySleep : SourceStore :=
  { files := ["garmin.db"]
    hasTable := fun _ _ => true
    readTable := fun _ _ => [] }

/-- A source whose `garmin.db` exists but only holds `daily_summary`. -/
def storeMissingStress : SourceStore :=
  { files := ["garmin.db"]
    hasTable := fun _ t => t == "daily_summary"
    readTable := fun _ _ => [("day", [Cell.raw "2024-01-01"])] }

/-- The per-table sync over `storeMissingStress`, as fed to the run loop. -/
def syncOverMissingStress (u : String) : Except String Nat :=
  (sync_table_to_bigquery storeMissingStress (fun _ => true) (fun _ => none)
    id u "incremental").map SyncResult.rows

/-- A source with no database files at all. -/
def storeNoFiles : SourceStore :=
  { files := []
    hasTable := fun _ _ => false
    readTable := fun _ _ => [] }

/-- A per-table outcome function that fails on exactly one table. -/
def oneBadTable (t : String) : Except String Nat :=
  if t == "bad_table" then Except.error "boom" else Except.ok 3

/-- A two-row frame with a date column and a plain column. -/
def dfEx : Frame :=
  [("day", [Cell.raw "2024-01-01", Cell.raw "oops"]),
   ("steps", [Cell.raw "100", Cell.raw "90"])]

/-- A parser that only understands one date literal. -/
def parseEx : Cell → Option Int
  | Cell.raw "2024-01-01" => some 19723
  | _ => none

/-! ## Helper lemmas about the warehouse-side MERGE semantics -/

theorem lookupCol_cons (a : String × String) (l : Row) (k : String) :
    lookupCol (a :: l) k =
      if (a.1 == k) = true then some a.2 else lookupCol l k := by
  cases h : (a.1 == k) with
  | true => simp [lookupCol, List.find?_cons, h]
  | false => simp [lookupCol, List.find?_cons, h]

theorem lookupCol_updateRow (pks : List String) (s : Row) (k : String)
    (hk : pks.contains k = true) :
    ∀ t : Row, lookupCol (updateRow pks t s) k = lookupCol t k := by
  intro t
  induction t with
  | nil => rfl
  | cons p rest ih =>
    show lookupCol
        ((if pks.contains p.1 then p else (p.1, (lookupCol s p.1).getD p.2)) ::
          updateRow pks rest s) k = lookupCol (p :: rest) k
    by_cases hc : pks.contains p.1 = true
    · rw [if_pos hc, lookupCol_cons, lookupCol_cons]
      by_cases hpk : (p.1 == k) = true
      · rw [if_pos hpk, if_pos hpk]
      · rw [if_neg hpk, if_neg hpk]; exact ih
    · rw [if_neg hc, lookupCol_cons, lookupCol_cons]
      by_cases hpk : (p.1 == k) = true
      · exact absurd (by rw [eq_of_beq hpk]; exact hk) hc
      · have hfst : ((p.1, (lookupCol s p.1).getD p.2).1 == k) = (p.1 == k) :=
          rfl
        rw [hfst, if_neg hpk, if_neg hpk]; exact ih

theorem rowKey_updateRow (pks : List String) (t s : Row) :
    rowKey pks (updateRow pks t s) = rowKey pks t := by
  unfold rowKey
  refine List.map_congr_left ?_
  intro k hk
  exact lookupCol_updateRow pks s k (List.elem_eq_true_of_mem hk) t

theorem staging_key_in_mergeRows (pks : List String)
    (target staging : List Row) :
    ∀ s ∈ staging, ∃ r ∈ mergeRows pks target staging,
      rowKey pks r = rowKey pks s := by
  intro s hs
  cases hmatch : target.any (fun t => rowKey pks t == rowKey pks s) with
  | true =>
    obtain ⟨t, ht, hbeq⟩ := List.any_eq_true.mp hmatch
    refine ⟨(match staging.find? (fun q => rowKey pks q == rowKey pks t) with
             | some q => updateRow pks t q
             | none => t), ?_, ?_⟩
    · simp only [mergeRows]
      exact List.mem_append_left _ (List.mem_map.mpr ⟨t, ht, rfl⟩)
    · cases hf : staging.find? (fun q => rowKey pks q == rowKey pks t) with
      | none => simpa using eq_of_beq hbeq
      | some q => simp only [hf]; rw [rowKey_updateRow]; exact eq_of_beq hbeq
  | false =>
    refine ⟨s, ?_, rfl⟩
    simp only [mergeRows]
    refine List.mem_append_right _ (List.mem_filter.mpr ⟨hs, ?_⟩)
    simp [hmatch]

theorem mergeRows_filter_nil (pks : List String)
    (target staging : List Row) :
    staging.filter (fun s =>
      !(mergeRows pks target staging).any
        (fun t => rowKey pks t == rowKey pks s)) = [] := by
  rw [List.filter_eq_nil_iff]
  intro s hs
  obtain ⟨r, hr, hkey⟩ := staging_key_in_mergeRows pks target staging s hs
  have hany : (mergeRows pks target staging).any
      (fun t => rowKey pks t == rowKey pks s) = true :=
    List.any_eq_true.mpr ⟨r, hr, by simp [hkey]⟩
  simp [hany]

/-! ## Helper lemmas about the run loop -/

theorem runSync_rowCounts_fst (f : String → Except String Nat) :
    ∀ ts : List String, (runSync f ts).rowCounts.map Prod.fst = ts := by
  intro ts
  induction ts with
  | nil => rfl
  | cons t ts ih =>
    cases hft : f t with
    | ok n => simp [runSync, hft, ih]
    | error e => simp [runSync, hft, ih]

theorem runSync_failed_entry_zero (f : String → Except String Nat) :
    ∀ ts : List String, ∀ p ∈ (runSync f ts).rowCounts,
      isFailure (f p.1) = true → p.2 = 0 := by
  intro ts
  induction ts with
  | nil => intro p hp; simp [runSync] at hp
  | cons t ts ih =>
    intro p hp hfail
    cases hft : f t with
    | ok n =>
      simp only [runSync, hft] at hp
      rcases List.mem_cons.mp hp with rfl | hp
      · rw [hft] at hfail; exact absurd hfail (by simp [isFailure])
      · exact ih p hp hfail
    | error e =>
      simp only [runSync, hft] at hp
      rcases List.mem_cons.mp hp with rfl | hp
      · rfl
      · exact ih p hp hfail

theorem runSync_failedCount_zero_iff (f : String → Except String Nat) :
    ∀ ts : List String,
      ((runSync f ts).failedCount = 0 ↔
        ∀ t ∈ ts, isFailure (f t) = false) := by
  intro ts
  induction ts with
  | nil => simp [runSync]
  | cons t ts ih =>
    cases hft : f t with
    | ok n => simp [runSync, hft, isFailure, ih]
    | error e => simp [runSync, hft, isFailure]

theorem forall₂_coerce (parse : Cell → Option Int) (mk : Int → Cell)
    (l : List Cell) :
    List.Forall₂ (fun a b => parse a = none → b = Cell.null) l
      (l.map (coerceCell parse mk)) := by
  induction l with
  | nil => exact List.Forall₂.nil
  | cons a l ih =>
    refine List.Forall₂.cons ?_ ih
    intro h
    simp [coerceCell, h]

/-! ## The claims -/

/-- C1: with a non-empty snapshot, running the staging-and-merge upsert a
second time against a target that already holds that snapshot changes
neither the target's row count nor its list of primary-key values: the
second run introduces no duplicate row for any key of the snapshot. -/
theorem C1_upsert_idempotent (pks : List String) (target staging : List Row)
    (_hne : staging ≠ []) :
    (mergeRows pks (mergeRows pks target staging) staging).map (rowKey pks) =
      (mergeRows pks target staging).map (rowKey pks) ∧
    (mergeRows pks (mergeRows pks target staging) staging).length =
      (mergeRows pks target staging).length := by
  have hsecond :
      mergeRows pks (mergeRows pks target staging) staging =
        (mergeRows pks target staging).map (fun t =>
          match staging.find? (fun s => rowKey pks s == rowKey pks t) with
          | some s => updateRow pks t s
          | none => t) := by
    have h0 : mergeRows pks (mergeRows pks target staging) staging =
        (mergeRows pks target staging).map (fun t =>
          match staging.find? (fun s => rowKey pks s == rowKey pks t) with
          | some s => updateRow pks t s
          | none => t) ++
        staging.filter (fun s =>
          !(mergeRows pks target staging).any
            (fun t => rowKey pks t == rowKey pks s)) := rfl
    rw [h0, mergeRows_filter_nil, List.append_nil]
  have hmap :
      ((mergeRows pks target staging).map (fun t =>
          match staging.find? (fun s => rowKey pks s == rowKey pks t) with
          | some s => updateRow pks t s
          | none => t)).map (rowKey pks) =
        (mergeRows pks target staging).map (rowKey pks) := by
    rw [List.map_map]
    refine List.map_congr_left ?_
    intro t ht
    show rowKey pks
        (match staging.find? (fun s => rowKey pks s == rowKey pks t) with
         | some s => updateRow pks t s
         | none => t) = rowKey pks t
    cases hf : staging.find? (fun s => rowKey pks s == rowKey pks t) with
    | none => rfl
    | some s => exact rowKey_updateRow pks t s
  exact ⟨by rw [hsecond]; exact hmap, by rw [hsecond, List.length_map]⟩

/-- Witness for C1 at the spec's own example: one staging row for day
2024-01-01 against a target already holding that day. -/
theorem C1_upsert_idempotent_witness :
    stgEx ≠ [] ∧
    (mergeRows ["day"] (mergeRows ["day"] tgtEx stgEx) stgEx).length =
      (mergeRows ["day"] tgtEx stgEx).length :=
  ⟨by decide, (C1_upsert_idempotent ["day"] tgtEx stgEx (by decide)).2⟩

/-- C2: whenever the snapshot has at least one non-key column, the merge
statement the source assembles is exactly the statement the specification
describes — joined on every primary-key column with equality AND,
overwriting every non-key column on match, inserting the full row on no
match, every column name delimited with backticks. -/
theorem C2_merge_statement_matches_spec (full_target full_staging : String)
    (columns primary_keys : List String)
    (h : update_columns columns primary_keys ≠ []) :
    merge_sql full_target full_staging columns primary_keys =
      spec_merge_sql full_target full_staging columns primary_keys := by
  have hne : (update_columns columns primary_keys).isEmpty = false := by
    cases hE : update_columns columns primary_keys with
    | nil => exact absurd hE h
    | cons a l => rfl
  have hus : update_set columns primary_keys =
      spec_update_set columns primary_keys := by
    unfold update_set
    rw [hne]
    rfl
  unfold merge_sql spec_merge_sql
  rw [hus]

/-- Witness for C2 on the daily_summary-style column list. -/
theorem C2_merge_statement_matches_spec_witness :
    update_columns ["day", "steps"] ["day"] ≠ [] ∧
    merge_sql "p.d.daily_summary" "p.d.daily_summary_staging"
        ["day", "steps"] ["day"] =
      spec_merge_sql "p.d.daily_summary" "p.d.daily_summary_staging"
        ["day", "steps"] ["day"] :=
  ⟨by decide,
   C2_merge_statement_matches_spec "p.d.daily_summary"
     "p.d.daily_summary_staging" ["day", "steps"] ["day"] (by decide)⟩

/-- C3: in every run of merge_to_bigquery the staging-table drop is the
last warehouse call and is always attempted; the returned result is
unchanged if the drop fails (a drop failure never masks or replaces the
merge's error), and a drop failure is only logged. -/
theorem C3_staging_drop_scoped (env : MergeEnv) (rowsAffected : Nat) :
    (merge_to_bigquery env rowsAffected).events.getLast? =
      some MergeEvent.dropStaging ∧
    (merge_to_bigquery env rowsAffected).result =
      (merge_to_bigquery { env with dropErr := none } rowsAffected).result ∧
    (merge_to_bigquery env rowsAffected).logs =
      (match env.dropErr with
       | some e => ["Failed to delete staging table: " ++ e]
       | none => []) := by
  obtain ⟨u, m, d⟩ := env
  refine ⟨?_, ?_, ?_⟩ <;> cases u <;> cases m <;> cases d <;> rfl

/-- C4: the validator accepts the string "abc" followed by a newline and
returns it unchanged, because Python's `$` also matches just before a
trailing newline — although that string is outside the language of
`^[A-Za-z0-9_]+$`, which the specification (and the function's own
docstring) say is the only accepted language. -/
theorem C4_trailing_newline_accepted :
    validate_table_name "abc\n" = Except.ok "abc\n" ∧
    specIdentifierMatch "abc\n" = false :=
  ⟨rfl, rfl⟩

/-- C9 counterexample: for the unregistered table sleep_events whose row
set starts with the date-like column "timestamp", the primary-key lookup
returns the constant ["day"], not the row set's first date-like column. -/
theorem C9_constant_default_counterexample :
    primaryKeysFor "sleep_events" = ["day"] ∧
    firstDateLikeColumn ["timestamp", "event"] = some "timestamp" ∧
    primaryKeysFor "sleep_events" ≠ ["timestamp"] := by
  refine ⟨rfl, rfl, ?_⟩
  decide

/-- C9 amended: for every table with no registered primary key, the lookup
used by the upsert returns the constant default ["day"], regardless of any
row set contents. -/
theorem C9_default_is_day (t : String)
    (h : TABLE_PRIMARY_KEYS.find? (fun p => p.1 == t) = none) :
    primaryKeysFor t = ["day"] := by
  unfold primaryKeysFor
  rw [h]
  rfl

/-- Witness for the amended C9 at the unregistered table sleep_events. -/
theorem C9_default_is_day_witness :
    TABLE_PRIMARY_KEYS.find? (fun p => p.1 == "sleep_events") = none ∧
    primaryKeysFor "sleep_events" = ["day"] :=
  ⟨rfl, C9_default_is_day "sleep_events" rfl⟩

/-- C5: the run loop records an outcome for every table in order, a failed
table is recorded with zero rows, no failure stops the tables after it,
and the process exit status is non-zero exactly when at least one table
failed. -/
theorem C5_per_table_error_isolation (f : String → Except String Nat)
    (tables : List String) :
    (runSync f tables).rowCounts.map Prod.fst = tables ∧
    (∀ p ∈ (runSync f tables).rowCounts,
      isFailure (f p.1) = true → p.2 = 0) ∧
    (exitCode (runSync f tables) ≠ 0 ↔
      ∃ t ∈ tables, isFailure (f t) = true) := by
  refine ⟨runSync_rowCounts_fst f tables,
    runSync_failed_entry_zero f tables, ?_⟩
  by_cases hz : (runSync f tables).failedCount = 0
  · have hall := (runSync_failedCount_zero_iff f tables).mp hz
    constructor
    · intro hne; exact absurd (by simp [exitCode, hz]) hne
    · rintro ⟨t, ht, hfail⟩
      rw [hall t ht] at hfail
      exact (Bool.false_ne_true hfail).elim
  · have hpos : 0 < (runSync f tables).failedCount := Nat.pos_of_ne_zero hz
    have hex : ∃ t ∈ tables, isFailure (f t) = true := by
      by_contra hnone
      push_neg at hnone
      have hall : ∀ t ∈ tables, isFailure (f t) = false := fun t ht =>
        Bool.eq_false_iff.mpr (hnone t ht)
      exact hz ((runSync_failedCount_zero_iff f tables).mpr hall)
    constructor
    · intro _; exact hex
    · intro _; simp [exitCode, if_pos hpos]

/-- Witness for C5 on a two-table run whose second table fails. -/
theorem C5_per_table_error_isolation_witness :
    (runSync oneBadTable ["daily_summary", "bad_table"]).rowCounts.map
        Prod.fst = ["daily_summary", "bad_table"] ∧
    (exitCode (runSync oneBadTable ["daily_summary", "bad_table"]) ≠ 0 ↔
      ∃ t ∈ ["daily_summary", "bad_table"], isFailure (oneBadTable t) = true) :=
  ⟨(C5_per_table_error_isolation oneBadTable _).1,
   (C5_per_table_error_isolation oneBadTable _).2.2⟩

/-- C6: on an empty snapshot the sync returns 0 rows; with a registered
schema it performs exactly one idempotent create of the destination table
carrying the declared column set, and with no registered schema it
performs no destination write at all. -/
theorem C6_empty_snapshot_scaffold (store : SourceStore)
    (destHasTable : String → Bool) (parse : Cell → Option Int)
    (normalize : Int → Int) (t mode : String)
    (hv : pyMatchTableNamePattern t = true)
    (hf : store.files.contains (dbFileFor t) = true)
    (ht : store.hasTable (dbFileFor t) t = true)
    (h0 : numRows (convert_datetime_columns parse normalize
        (store.readTable (dbFileFor t) t)) = 0) :
    sync_table_to_bigquery store destHasTable parse normalize t mode =
      (match TABLE_SCHEMAS.find? (fun p => p.1 == t) with
       | some p =>
         Except.ok { rows := 0,
                     actions := [DestAction.createEmpty t p.2],
                     status := SyncStatus.scaffoldCreated }
       | none =>
         Except.ok { rows := 0, actions := [],
                     status := SyncStatus.skippedEmptyNoSchema }) := by
  have hf' : dbFileFor t ∈ store.files := List.mem_of_elem_eq_true hf
  simp [sync_table_to_bigquery, validate_table_name, hv, hf', ht, h0]

/-- Witness for C6: the sleep table read empty from an existing file. -/
theorem C6_empty_snapshot_scaffold_witness :
    numRows (convert_datetime_columns (fun _ => none) id
        (storeEmptySleep.readTable (dbFileFor "sleep") "sleep")) = 0 ∧
    sync_table_to_bigquery storeEmptySleep (fun _ => false) (fun _ => none)
        id "sleep" "incremental" =
      (match TABLE_SCHEMAS.find? (fun p => p.1 == "sleep") with
       | some p =>
         Except.ok { rows := 0,
                     actions := [DestAction.createEmpty "sleep" p.2],
                     status := SyncStatus.scaffoldCreated }
       | none =>
         Except.ok { rows := 0, actions := [],
                     status := SyncStatus.skippedEmptyNoSchema }) :=
  ⟨rfl, C6_empty_snapshot_scaffold storeEmptySleep _ _ _ "sleep"
    "incremental" rfl rfl rfl rfl⟩

/-- C7: a table absent from its source database yields the
skipped-missing-table outcome with zero rows and no destination write,
and a run in which no other table fails exits with status zero. -/
theorem C7_missing_table_skip (store : SourceStore)
    (destHasTable : String → Bool) (parse : Cell → Option Int)
    (normalize : Int → Int) (t mode : String)
    (hv : pyMatchTableNamePattern t = true)
    (hf : store.files.contains (dbFileFor t) = true)
    (ht : store.hasTable (dbFileFor t) t = false) :
    sync_table_to_bigquery store destHasTable parse normalize t mode =
      Except.ok { rows := 0, actions := [],
                  status := SyncStatus.skippedMissingTable } ∧
    ∀ tables : List String,
      (∀ u ∈ tables, u ≠ t →
        isFailure ((sync_table_to_bigquery store destHasTable parse
          normalize u mode).map SyncResult.rows) = false) →
      exitCode (runSync (fun u =>
        (sync_table_to_bigquery store destHasTable parse normalize u
          mode).map SyncResult.rows) tables) = 0 := by
  have hskip : sync_table_to_bigquery store destHasTable parse normalize
      t mode =
      Except.ok { rows := 0, actions := [],
                  status := SyncStatus.skippedMissingTable } := by
    have hf' : dbFileFor t ∈ store.files := List.mem_of_elem_eq_true hf
    simp [sync_table_to_bigquery, validate_table_name, hv, hf', ht]
  refine ⟨hskip, ?_⟩
  intro tables hothers
  have hall : ∀ u ∈ tables,
      isFailure ((sync_table_to_bigquery store destHasTable parse normalize
        u mode).map SyncResult.rows) = false := by
    intro u hu
    by_cases hut : u = t
    · subst hut; rw [hskip]; rfl
    · exact hothers u hu hut
  have hz := (runSync_failedCount_zero_iff _ tables).mpr hall
  simp [exitCode, hz]

/-- Witness for C7: stress is missing from an existing garmin.db while
daily_summary syncs fine, and the run exits 0. -/
theorem C7_missing_table_skip_witness :
    storeMissingStress.hasTable (dbFileFor "stress") "stress" = false ∧
    sync_table_to_bigquery storeMissingStress (fun _ => true)
        (fun _ => none) id "stress" "incremental" =
      Except.ok { rows := 0, actions := [],
                  status := SyncStatus.skippedMissingTable } ∧
    exitCode (runSync syncOverMissingStress ["daily_summary", "stress"]) = 0 :=
  ⟨rfl,
   (C7_missing_table_skip storeMissingStress (fun _ => true) (fun _ => none)
     id "stress" "incremental" rfl rfl rfl).1,
   (C7_missing_table_skip storeMissingStress (fun _ => true) (fun _ => none)
     id "stress" "incremental" rfl rfl rfl).2
     ["daily_summary", "stress"] (by decide)⟩

/-- C8: the type normalizer keeps the column list (names and order), leaves
every column named outside the date and timestamp pattern sets completely
untouched, and inside those sets turns every cell the parser rejects into
the null marker instead of raising. -/
theorem C8_normalizer_frame (parse : Cell → Option Int)
    (normalize : Int → Int) (df : Frame) :
    List.Forall₂ (fun (cin cout : String × List Cell) =>
      cout.1 = cin.1 ∧
      (date_columns.contains cin.1 = false →
        timestamp_columns.contains cin.1 = false → cout = cin) ∧
      ((date_columns.contains cin.1 = true ∨
        timestamp_columns.contains cin.1 = true) →
        List.Forall₂ (fun a b => parse a = none → b = Cell.null)
          cin.2 cout.2))
      df (convert_datetime_columns parse normalize df) := by
  induction df with
  | nil => exact List.Forall₂.nil
  | cons c rest ih =>
    refine List.Forall₂.cons ?_ ih
    unfold convertCol
    by_cases hd : date_columns.contains c.1 = true
    · rw [if_pos hd]
      refine ⟨rfl, ?_, ?_⟩
      · intro h1 _; rw [h1] at hd; exact (Bool.false_ne_true hd).elim
      · intro _; exact forall₂_coerce parse _ c.2
    · rw [if_neg hd]
      by_cases hts : timestamp_columns.contains c.1 = true
      · rw [if_pos hts]
        refine ⟨rfl, ?_, ?_⟩
        · intro _ h2; rw [h2] at hts; exact (Bool.false_ne_true hts).elim
        · intro _; exact forall₂_coerce parse _ c.2
      · rw [if_neg hts]
        refine ⟨rfl, fun _ _ => rfl, ?_⟩
        rintro (h | h)
        · exact absurd h hd
        · exact absurd h hts

/-- Witness for C8 at a concrete frame with one unparseable date cell. -/
theorem C8_normalizer_frame_witness :
    List.Forall₂ (fun (cin cout : String × List Cell) =>
      cout.1 = cin.1 ∧
      (date_columns.contains cin.1 = false →
        timestamp_columns.contains cin.1 = false → cout = cin) ∧
      ((date_columns.contains cin.1 = true ∨
        timestamp_columns.contains cin.1 = true) →
        List.Forall₂ (fun a b => parseEx a = none → b = Cell.null)
          cin.2 cout.2))
      dfEx (convert_datetime_columns parseEx id dfEx) :=
  C8_normalizer_frame parseEx id dfEx

/-- C10: a validated table name absent from the routing map falls back to
the default database file garmin.db, and the sync reports a missing-source
skip exactly when that file is absent or the table is absent from it. -/
theorem C10_default_db_fallback (store : SourceStore)
    (destHasTable : String → Bool) (parse : Cell → Option Int)
    (normalize : Int → Int) (t mode : String)
    (hv : pyMatchTableNamePattern t = true)
    (hmap : TABLE_TO_DB.find? (fun p => p.1 == t) = none) :
    dbFileFor t = "garmin.db" ∧
    (isMissingSkip (sync_table_to_bigquery store destHasTable parse
        normalize t mode) = true ↔
      (store.files.contains "garmin.db" = false ∨
        store.hasTable "garmin.db" t = false)) := by
  have hdb : dbFileFor t = "garmin.db" := by
    unfold dbFileFor; rw [hmap]; rfl
  refine ⟨hdb, ?_⟩
  simp only [sync_table_to_bigquery, validate_table_name, hv, if_true, hdb]
  cases hcf : store.files.contains "garmin.db" with
  | false => simp [isMissingSkip, hcf]
  | true =>
    cases hht : store.hasTable "garmin.db" t with
    | false => simp [isMissingSkip, hcf, hht]
    | true =>
      simp only [hcf, hht, Bool.not_true, Bool.false_eq_true, if_false]
      constructor
      · intro habs
        exfalso
        revert habs
        by_cases h0 : numRows (convert_datetime_columns parse normalize
            (store.readTable "garmin.db" t)) = 0
        · rw [if_pos h0]
          cases hsch : TABLE_SCHEMAS.find? (fun p => p.1 == t) with
          | none => simp [isMissingSkip]
          | some p => simp [isMissingSkip]
        · rw [if_neg h0]
          by_cases hm : (mode == "full_refresh") = true
          · rw [if_pos hm]; simp [isMissingSkip]
          · rw [if_neg hm]
            by_cases hdt : destHasTable t = true
            · simp [isMissingSkip, hdt]
            · have hdt' : destHasTable t = false := by
                cases hx : destHasTable t with
                | false => rfl
                | true => exact absurd hx hdt
              simp [isMissingSkip, hdt']
      · rintro (h | h) <;> simp at h

/-- Witness for C10 at the unmapped table name body_composition against a
source with no database files. -/
theorem C10_default_db_fallback_witness :
    TABLE_TO_DB.find? (fun p => p.1 == "body_composition") = none ∧
    dbFileFor "body_composition" = "garmin.db" ∧
    (isMissingSkip (sync_table_to_bigquery storeNoFiles (fun _ => true)
        (fun _ => none) id "body_composition" "incremental") = true ↔
      (storeNoFiles.files.contains "garmin.db" = false ∨
        storeNoFiles.hasTable "garmin.db" "body_composition" = false)) :=
  ⟨rfl,
   (C10_default_db_fallback storeNoFiles (fun _ => true) (fun _ => none) id
     "body_composition" "incremental" rfl rfl).1,
   (C10_default_db_fallback storeNoFiles (fun _ => true) (fun _ => none) id
     "body_composition" "incremental" rfl rfl).2⟩

end GarminSync
